import Mathlib

/-!
Verification of the `time-dot-ir-scraper` repository.

The visible source is a single notebook, `src/scraping_usage.ipynb`.  Its
first cell imports `TimeDotIrScraper`, `ScrapingParameters` and
`CalendarRange` from the external `timescrap` package; its second cell is a
straight-line script of thirteen variable assignments culminating in a call
to `scraper.scrape()` bound to `results`.

We embed the notebook at two levels:

* **value level** — each assignment of cell-1 becomes a Lean definition with
  the same name, computing the same value.  The two data-holder classes
  `CalendarRange` and `ScrapingParameters` and the facade `TimeDotIrScraper`
  come from the external, absent `timescrap` library; here they are records
  whose fields are exactly the keywords the notebook passes (which match the
  field descriptions of the specification's data model).  The body of
  `scrape()` is external and opaque, so `results` is parametrised over an
  arbitrary implementation of `scrape`.

* **syntax level** — `notebookCell1` lists the thirteen statements of
  cell-1 in program order.  Each statement records the variable it assigns
  (`lhs`), the previously-assigned variables its right-hand side reads
  (`uses`), and the calls its right-hand side performs, in evaluation order
  (`calls`).  `Call` enumerates every call expression occurring in the
  notebook: the builtins `list` and `range`, the three class instantiations,
  and the single method invocation `scrape()`.
-/

namespace ScrapingUsage

/-- Python value passed for the `months` / `days` fields of `CalendarRange`:
either an explicit list of numbers or a string sentinel such as
`"whole_year"` / `"whole_month"`. -/
inductive Selector where
  | explicitList (l : List Int)
  | sentinel (s : String)
deriving DecidableEq, Repr

/-- Modelled from the spec: `CalendarRange` lives in the absent external
module `timescrap.types`; the spec describes it as "a date-range descriptor
with fields for calendar system, a collection of years, a month selector,
and a day selector", and the notebook constructs it with exactly the four
keywords `calenadr_type`, `years`, `months`, `days` (the first one spelled
exactly as in the source). -/
structure CalendarRange where
  calenadr_type : String
  years : List Int
  months : Selector
  days : Selector
deriving DecidableEq, Repr

/-- Modelled from the spec: `ScrapingParameters` lives in the absent
external module `timescrap.types`; the spec describes it as "a configuration
bundle combining a `CalendarRange`, a randomized delay interval between
requests, a warning threshold for consecutive retries, a hard-stop threshold
for consecutive failures, an output file path, and a resume flag", and the
notebook constructs it with exactly these six keywords. -/
structure ScrapingParameters where
  calendar_range : CalendarRange
  sleep_range : Int × Int
  retry_limit_warning : Int
  halt_limit : Int
  save_file_path : String
  resume : Bool
deriving DecidableEq, Repr

/-- Modelled from the spec: `TimeDotIrScraper` lives in the absent external
module `timescrap.proxy_scraper`; the notebook instantiates it from the one
`ScrapingParameters` value.  Its `scrape()` body is external and opaque to
this repository. -/
structure TimeDotIrScraper where
  scraping_parameters : ScrapingParameters
deriving DecidableEq, Repr

/-- Python's `range(a, b)` for integer bounds: the integers `a, a+1, …, b-1`
(empty when `b ≤ a`). -/
def pyRange (a b : Int) : List Int :=
  (List.range (b - a).toNat).map (fun i => a + i)

/-- Python's `list(…)` applied to a materialised integer range. -/
def pyList (l : List Int) : List Int := l

/-- `years = list(range(2019, 2025))` -/
def years : List Int := pyList (pyRange 2019 2025)

/-- `months = "whole_year"` -/
def months : String := "whole_year"

/-- `days = "whole_month"` -/
def days : String := "whole_month"

/-- `calenadr_type = "gregorian"` (spelled exactly as in the source). -/
def calenadr_type : String := "gregorian"

/-- `sleep_range = (5, 10)` -/
def sleep_range : Int × Int := (5, 10)

/-- `retry_limit_warning = 20` -/
def retry_limit_warning : Int := 20

/-- `halt_limit = 50` -/
def halt_limit : Int := 50

/-- `save_file_path = "gitignore_dir/time_dot_ir_2019_to_2024.json"` -/
def save_file_path : String := "gitignore_dir/time_dot_ir_2019_to_2024.json"

/-- `resume = True` -/
def resume : Bool := true

/-- `calendar_range = CalendarRange(calenadr_type=calenadr_type, years=years,
months=months, days=days)`.  The string variables `months` / `days` arrive
as the sentinel alternative of the selector union. -/
def calendar_range : CalendarRange :=
  { calenadr_type := calenadr_type
    years := years
    months := Selector.sentinel months
    days := Selector.sentinel days }

/-- `scraping_parameters = ScrapingParameters(calendar_range=calendar_range,
sleep_range=sleep_range, retry_limit_warning=retry_limit_warning,
halt_limit=halt_limit, save_file_path=save_file_path, resume=resume)` -/
def scraping_parameters : ScrapingParameters :=
  { calendar_range := calendar_range
    sleep_range := sleep_range
    retry_limit_warning := retry_limit_warning
    halt_limit := halt_limit
    save_file_path := save_file_path
    resume := resume }

/-- `scraper = TimeDotIrScraper(scraping_parameters)` -/
def scraper : TimeDotIrScraper :=
  { scraping_parameters := scraping_parameters }

/-- `results = scraper.scrape()`.  The body of `scrape` belongs to the
absent external library, so the binding is stated for an arbitrary
implementation: whatever `scrape` returns on the one scraper instance is
what `results` holds. -/
def results {R : Type} (scrape : TimeDotIrScraper → R) : R :=
  scrape scraper

/-- The call expressions occurring in cell-1 of the notebook. -/
inductive Call where
  | builtin_range
  | builtin_list
  | ctor_CalendarRange
  | ctor_ScrapingParameters
  | ctor_TimeDotIrScraper
  | method_scrape
deriving DecidableEq, Repr

/-- A top-level statement of cell-1.  Every statement of the cell is a
plain variable assignment: `lhs` is the assigned name, `uses` the
previously-assigned variables read by the right-hand side, and `calls` the
call expressions the right-hand side performs, in evaluation order. -/
structure Stmt where
  lhs : String
  uses : List String
  calls : List Call
deriving DecidableEq, Repr

/-- The keywords of the `CalendarRange(...)` construction, in source order. -/
def calendarRangeKeywords : List String :=
  ["calenadr_type", "years", "months", "days"]

/-- The keywords of the `ScrapingParameters(...)` construction, in source
order. -/
def scrapingParametersKeywords : List String :=
  ["calendar_range", "sleep_range", "retry_limit_warning", "halt_limit",
   "save_file_path", "resume"]

/-- The thirteen statements of cell-1 of `scraping_usage.ipynb`, in program
order. -/
def notebookCell1 : List Stmt :=
  [ ⟨"years", [], [Call.builtin_range, Call.builtin_list]⟩,
    ⟨"months", [], []⟩,
    ⟨"days", [], []⟩,
    ⟨"calenadr_type", [], []⟩,
    ⟨"sleep_range", [], []⟩,
    ⟨"retry_limit_warning", [], []⟩,
    ⟨"halt_limit", [], []⟩,
    ⟨"save_file_path", [], []⟩,
    ⟨"resume", [], []⟩,
    ⟨"calendar_range", calendarRangeKeywords, [Call.ctor_CalendarRange]⟩,
    ⟨"scraping_parameters", scrapingParametersKeywords,
      [Call.ctor_ScrapingParameters]⟩,
    ⟨"scraper", ["scraping_parameters"], [Call.ctor_TimeDotIrScraper]⟩,
    ⟨"results", ["scraper"], [Call.method_scrape]⟩ ]

/-- Every call of cell-1, in evaluation order. -/
def notebookCalls : List Call :=
  (notebookCell1.map Stmt.calls).flatten

/-- Whether a call is a class instantiation (a constructor call). -/
def isConstructorCall : Call → Bool
  | Call.ctor_CalendarRange => true
  | Call.ctor_ScrapingParameters => true
  | Call.ctor_TimeDotIrScraper => true
  | _ => false

/-- Whether a call is a method invocation on an object. -/
def isMethodCall : Call → Bool
  | Call.method_scrape => true
  | _ => false

/-- `needle` occurs as a contiguous substring of `hay` (on character
lists). -/
def listHasSub (needle hay : List Char) : Bool :=
  (List.range (hay.length + 1)).any
    (fun i => ((hay.drop i).take needle.length == needle))

/-- `needle` is a suffix of `hay` (on character lists). -/
def listEndsWith (needle hay : List Char) : Bool :=
  (hay.drop (hay.length - needle.length)) == needle

/-- Claim C1: cell-1 builds the `CalendarRange`, then wraps it together with
the retry/backoff/resume settings into the `ScrapingParameters` object, then
instantiates `TimeDotIrScraper` from that parameters object, and finally
calls `scrape()` binding its return value to `results` — in this order. -/
theorem notebook_builds_and_scrapes_in_order :
    (notebookCalls.indexOf Call.ctor_CalendarRange <
        notebookCalls.indexOf Call.ctor_ScrapingParameters ∧
      notebookCalls.indexOf Call.ctor_ScrapingParameters <
        notebookCalls.indexOf Call.ctor_TimeDotIrScraper ∧
      notebookCalls.indexOf Call.ctor_TimeDotIrScraper <
        notebookCalls.indexOf Call.method_scrape) ∧
    scraping_parameters.calendar_range = calendar_range ∧
    scraping_parameters.sleep_range = sleep_range ∧
    scraping_parameters.retry_limit_warning = retry_limit_warning ∧
    scraping_parameters.halt_limit = halt_limit ∧
    scraping_parameters.resume = resume ∧
    scraper.scraping_parameters = scraping_parameters ∧
    (notebookCell1.map Stmt.lhs).getLast? = some "results" ∧
    ∀ (R : Type) (scrape : TimeDotIrScraper → R), results scrape = scrape scraper := by
  refine ⟨by decide, rfl, rfl, rfl, rfl, rfl, rfl, by decide, fun R s => rfl⟩

/-- Claim C2 counterexample: cell-1 does not make exactly two constructor
calls — it makes three class instantiations (`CalendarRange`,
`ScrapingParameters`, `TimeDotIrScraper`), and it additionally calls the
builtins `range` and `list`, so "no other calls" fails as well. -/
theorem notebook_not_two_ctor_calls :
    ¬ (notebookCalls.filter isConstructorCall).length = 2 ∧
    (notebookCalls.filter isConstructorCall).length = 3 ∧
    Call.builtin_list ∈ notebookCalls ∧ Call.builtin_range ∈ notebookCalls := by
  decide

/-- Claim C2 amended: cell-1 consists only of variable assignments; its
right-hand sides perform, in order, the builtin calls `range` and `list`,
exactly three constructor calls (`CalendarRange`, `ScrapingParameters`,
`TimeDotIrScraper`), and exactly one method invocation, `scrape()`, which is
the last call made. -/
theorem notebook_call_inventory :
    notebookCalls =
      [Call.builtin_range, Call.builtin_list, Call.ctor_CalendarRange,
       Call.ctor_ScrapingParameters, Call.ctor_TimeDotIrScraper,
       Call.method_scrape] ∧
    (notebookCalls.filter isConstructorCall).length = 3 ∧
    (notebookCalls.filter isMethodCall).length = 1 ∧
    notebookCalls.getLast? = some Call.method_scrape ∧
    notebookCell1.all (fun s => decide (s.lhs ≠ "")) = true := by
  decide

/-- Claim C3: the `ScrapingParameters` the notebook constructs bundles
exactly the six configuration fields — the `CalendarRange`, the sleep
interval, the retry-warning threshold, the halt threshold, the output file
path and the resume flag (two values agreeing on these six fields are the
same value) — and each is passed by keyword named after the previously
assigned variable it takes its value from. -/
theorem scraping_parameters_bundles_six_fields :
    scraping_parameters.calendar_range = calendar_range ∧
    scraping_parameters.sleep_range = sleep_range ∧
    scraping_parameters.retry_limit_warning = retry_limit_warning ∧
    scraping_parameters.halt_limit = halt_limit ∧
    scraping_parameters.save_file_path = save_file_path ∧
    scraping_parameters.resume = resume ∧
    scrapingParametersKeywords =
      ["calendar_range", "sleep_range", "retry_limit_warning", "halt_limit",
       "save_file_path", "resume"] ∧
    notebookCell1[10]? =
      some ⟨"scraping_parameters", scrapingParametersKeywords,
        [Call.ctor_ScrapingParameters]⟩ ∧
    ∀ p q : ScrapingParameters,
      p = q ↔
        (p.calendar_range = q.calendar_range ∧ p.sleep_range = q.sleep_range ∧
         p.retry_limit_warning = q.retry_limit_warning ∧
         p.halt_limit = q.halt_limit ∧ p.save_file_path = q.save_file_path ∧
         p.resume = q.resume) := by
  refine ⟨rfl, rfl, rfl, rfl, rfl, rfl, rfl, by decide, fun p q => ?_⟩
  cases p
  cases q
  simp

/-- Claim C4: the `CalendarRange` the notebook constructs has its
calendar-system field set to `"gregorian"`, its years field an explicit list
of years, its months field the sentinel `"whole_year"`, and its days field
the sentinel `"whole_month"`. -/
theorem calendar_range_field_values :
    calendar_range.calenadr_type = "gregorian" ∧
    calendar_range.years = [2019, 2020, 2021, 2022, 2023, 2024] ∧
    calendar_range.months = Selector.sentinel "whole_year" ∧
    calendar_range.days = Selector.sentinel "whole_month" := by
  decide

/-- Claim C5: each of `calendar_range` and `scraping_parameters` is assigned
by exactly one statement of cell-1, is read by exactly one later statement
(the `ScrapingParameters(...)` and `TimeDotIrScraper(...)` constructions
respectively), its constructor is called exactly once, and no statement
mutates it afterwards — so the fields observable through the scraper after
`scrape()` equal their construction-time values. -/
theorem data_holders_constructed_once_passed_once :
    (notebookCell1.filter (fun s => s.lhs == "calendar_range")).length = 1 ∧
    (notebookCell1.filter (fun s => s.lhs == "scraping_parameters")).length = 1 ∧
    ((notebookCell1.filter
        (fun s => s.uses.contains "calendar_range")).map Stmt.lhs) =
      ["scraping_parameters"] ∧
    ((notebookCell1.filter
        (fun s => s.uses.contains "scraping_parameters")).map Stmt.lhs) =
      ["scraper"] ∧
    notebookCalls.count Call.ctor_CalendarRange = 1 ∧
    notebookCalls.count Call.ctor_ScrapingParameters = 1 ∧
    scraper.scraping_parameters = scraping_parameters ∧
    scraper.scraping_parameters.calendar_range = calendar_range := by
  decide

/-- Claim C6: cell-1 invokes `scrape()` exactly once, it is the only method
invocation and the final call of the straight-line script, and the scraper
variable is read by exactly one statement (the `results` binding). -/
theorem scrape_invoked_exactly_once :
    notebookCalls.count Call.method_scrape = 1 ∧
    notebookCalls.filter isMethodCall = [Call.method_scrape] ∧
    ((notebookCell1.filter (fun s => s.uses.contains "scraper")).map Stmt.lhs) =
      ["results"] ∧
    notebookCalls.getLast? = some Call.method_scrape := by
  decide

/-- Claim C7: the notebook passes the string
`"gitignore_dir/time_dot_ir_2019_to_2024.json"` — a `.json` path — as the
`save_file_path` field of `ScrapingParameters`; that variable is read by no
other statement, and the complete call inventory of the notebook contains no
file read or write, so the output file location is supplied purely as a
parameter. -/
theorem save_file_path_purely_a_parameter :
    save_file_path = "gitignore_dir/time_dot_ir_2019_to_2024.json" ∧
    listEndsWith ".json".data save_file_path.data = true ∧
    scraping_parameters.save_file_path = save_file_path ∧
    ((notebookCell1.filter
        (fun s => s.uses.contains "save_file_path")).map Stmt.lhs) =
      ["scraping_parameters"] ∧
    notebookCalls =
      [Call.builtin_range, Call.builtin_list, Call.ctor_CalendarRange,
       Call.ctor_ScrapingParameters, Call.ctor_TimeDotIrScraper,
       Call.method_scrape] := by
  decide

/-- Claim C8: the keyword under which the calendar system is passed to the
`CalendarRange` constructor is the misspelled identifier `calenadr_type`;
the conventional spelling `calendar_type` is not among the keywords the
notebook uses, so a caller using it would not match the exercised
interface. -/
theorem calendar_keyword_is_misspelled :
    "calenadr_type" ∈ calendarRangeKeywords ∧
    "calendar_type" ∉ calendarRangeKeywords ∧
    calendar_range.calenadr_type = "gregorian" := by
  decide

/-- Claim C9: `years` is exactly the six consecutive years
`[2019, 2020, 2021, 2022, 2023, 2024]` — `list(range(2019, 2025))` includes
2024 and excludes 2025 — consistent with the `2019_to_2024` output file
name. -/
theorem years_are_2019_to_2024 :
    years = [2019, 2020, 2021, 2022, 2023, 2024] ∧
    (2024 : Int) ∈ years ∧ (2025 : Int) ∉ years ∧
    years.length = 6 ∧
    ((years.zip years.tail).all (fun p => p.2 == p.1 + 1)) = true ∧
    listHasSub "2019_to_2024".data save_file_path.data = true := by
  decide

/-- Claim C10: the configured thresholds are ordered — the sleep interval's
lower bound is strictly below its upper bound (5 < 10), and the
retry-warning threshold is strictly below the halt threshold (20 < 50), so
the warning is configured to precede the halt. -/
theorem thresholds_well_ordered :
    sleep_range.1 < sleep_range.2 ∧ retry_limit_warning < halt_limit := by
  decide

end ScrapingUsage
